import Mathlib

/-!
Verification of `chemberta/utils/raw_text_dataset.py` (bert-loves-chemistry).

The file defines two torch dataset adapters plus one helper:
  * `get_data_files` (the File Resolver): path → single file or directory listing;
  * `RawTextDataset` (the Text Example Adapter): lazily-loaded text lines,
    tokenized with truncation, no padding;
  * `RegressionDataset` (the Label Example Adapter): lazily-loaded CSV rows,
    text column tokenized with padding to a fixed length, label columns
    cleaned of None/NaN/Inf via `_clean_property`.

Shallow embedding choices, each noted at its definition:
  * Python floats are modelled symbolically (`PyFloat`): NaN, +Inf, -Inf, or a
    finite rational — `_clean_property` only ever branches on the NaN/Inf
    classification, never on rounding, so this is exact for the code at hand.
  * The tokenizer and the lazy dataset loader are external capabilities and are
    passed in as function parameters; theorems that depend on the tokenizer
    honouring its documented truncation/padding contract take that contract as
    a hypothesis about the concrete call involved.
  * Fallible Python code (raise) becomes `Except String`.
  * `torch.tensor` on a list of numbers is the identity on the modelled list.
-/

namespace Chemberta

/-- Model of a Python float as classified by `math.isnan` / `math.isinf`:
NaN, +Inf, -Inf, or a finite value (represented exactly as a rational).
`_clean_property` only inspects this classification. -/
inductive PyFloat where
  | nan
  | inf
  | ninf
  | finite (q : ℚ)
deriving DecidableEq, Repr

/-- Model of a Python value as it can appear in a CSV cell handed to
`_clean_property`: `None`, an `int`, a `float`, or a `str`. -/
inductive PyVal where
  | none
  | int (n : ℤ)
  | float (x : PyFloat)
  | str (s : String)
deriving DecidableEq, Repr

/-- `math.isnan`: true exactly on float NaN; accepts ints (never NaN);
raises `TypeError` on non-numeric arguments such as `None` or a `str`. -/
def mathIsnan : PyVal → Except String Bool
  | .int _ => .ok false
  | .float .nan => .ok true
  | .float _ => .ok false
  | _ => .error "TypeError: must be real number"

/-- `math.isinf`: true exactly on float +Inf and -Inf; accepts ints;
raises `TypeError` on non-numeric arguments. -/
def mathIsinf : PyVal → Except String Bool
  | .int _ => .ok false
  | .float .inf => .ok true
  | .float .ninf => .ok true
  | .float _ => .ok false
  | _ => .error "TypeError: must be real number"

/-- The options the datasets pass to the HuggingFace tokenizer call:
`add_special_tokens`, `truncation`, `padding` (the default `False` is
`Option.none`, the string `"max_length"` is `some "max_length"`) and
`max_length`. -/
structure TokenizerOptions where
  add_special_tokens : Bool
  truncation : Bool
  padding : Option String
  max_length : Nat
deriving DecidableEq, Repr

/-- The external tokenizer capability: a string plus options yield a
`BatchEncoding`, modelled as an association list from field name
(`"input_ids"`, `"attention_mask"`, ...) to a list of token ids. -/
structure Tokenizer where
  call : String → TokenizerOptions → List (String × List Int)

/-- The file-system facts `get_data_files` consults: `os.path.isdir`,
`os.path.isfile` and `os.listdir`. -/
structure FileSystem where
  isdir : String → Bool
  isfile : String → Bool
  listdir : String → List String

/-- `os.path.join` for two POSIX path components: an absolute second component
wins; otherwise a separator is inserted unless one is already present.
(The slash tests go through `String.data` so the function evaluates.) -/
def os_path_join (d f : String) : String :=
  if f.data.head? = some (Char.ofNat 47) then f
  else if d = "" ∨ d.data.getLast? = some (Char.ofNat 47) then d ++ f
  else d ++ "/" ++ f

/-- Return value of `get_data_files`: either a bare single path (the file
case) or a Python list of paths (the directory case). -/
inductive DataFiles where
  | single (p : String)
  | multiple (ps : List String)
deriving DecidableEq, Repr

/-- `get_data_files(train_path)`: directory → list of joined entries,
file → the bare path, otherwise `raise ValueError`. -/
def get_data_files (fs : FileSystem) (train_path : String) : Except String DataFiles :=
  if fs.isdir train_path then
    .ok (.multiple ((fs.listdir train_path).map (fun file_name => os_path_join train_path file_name)))
  else if fs.isfile train_path then
    .ok (.single train_path)
  else
    .error "Please pass in a proper train path"

/-- State of `RawTextDataset` after `__init__`: tokenizer handle, the original
path, the block size, the lazily-loaded line sequence (modelled as the list of
raw lines) and the cached length. -/
structure RawTextDataset where
  tokenizer : Tokenizer
  file_path : String
  block_size : Nat
  dataset : List String
  len : Nat

namespace RawTextDataset

/-- `RawTextDataset.__init__`: resolve the path via `get_data_files` (a
failure there propagates to the caller), load the lazy text dataset through
the injected loader capability, and cache its length. -/
def init (tokenizer : Tokenizer) (fs : FileSystem)
    (load_text : DataFiles → List String) (file_path : String) (block_size : Nat) :
    Except String RawTextDataset :=
  match get_data_files fs file_path with
  | .error m => .error m
  | .ok data_files =>
      let dataset := load_text data_files
      .ok { tokenizer, file_path, block_size, dataset, len := dataset.length }

/-- The exact options `RawTextDataset.preprocess` passes to the tokenizer:
special tokens added, truncation on, no padding, `max_length = block_size`. -/
def textOpts (block_size : Nat) : TokenizerOptions :=
  { add_special_tokens := true, truncation := true,
    padding := Option.none, max_length := block_size }

/-- `RawTextDataset.preprocess(text)`: tokenize `str(text)` with `textOpts`
and return `torch.tensor(batch_encoding["input_ids"])`; a `BatchEncoding`
without an `"input_ids"` field would raise `KeyError`. -/
def preprocess (d : RawTextDataset) (text : String) : Except String (List Int) :=
  let batch_encoding := d.tokenizer.call text (textOpts d.block_size)
  match batch_encoding.lookup "input_ids" with
  | some ids => .ok ids
  | Option.none => .error "KeyError: input_ids"

/-- `RawTextDataset.__getitem__(i)`: fetch line `i` from the lazy sequence
(an out-of-range index raises, delegated to the underlying sequence), then
`preprocess` it. -/
def getItem (d : RawTextDataset) (i : Nat) : Except String (List Int) :=
  match d.dataset[i]? with
  | some line => d.preprocess line
  | Option.none => .error "IndexError: index out of range"

/-- State-passing rendering of `__getitem__`: the method body binds two
locals and returns; it assigns no attribute, so the post state is the
receiver unchanged. -/
def getItemS (d : RawTextDataset) (i : Nat) :
    Except String (List Int) × RawTextDataset :=
  (d.getItem i, d)

end RawTextDataset

/-- Result of the external CSV lazy loader: the schema column names in order
(`dataset.features.keys()`) and the rows, each row a dict from column name to
cell value. -/
structure CsvData where
  columns : List String
  rows : List (List (String × PyVal))

/-- State of `RegressionDataset` after `__init__`. -/
structure RegressionDataset where
  tokenizer : Tokenizer
  file_path : String
  block_size : Nat
  dataset : List (List (String × PyVal))
  smiles_column : String
  label_columns : List String
  num_labels : Nat
  len : Nat

namespace RegressionDataset

/-- `RegressionDataset.__init__`: resolve the path, load the lazy CSV dataset
through the injected loader, split the schema columns into
`smiles_column = columns[0]` and `label_columns = columns[1:]`
(an empty schema would make `columns[0]` raise `IndexError`), and cache
`num_labels` and the length. -/
def init (tokenizer : Tokenizer) (fs : FileSystem)
    (load_csv : DataFiles → CsvData) (file_path : String) (block_size : Nat) :
    Except String RegressionDataset :=
  match get_data_files fs file_path with
  | .error m => .error m
  | .ok data_files =>
      let data := load_csv data_files
      match data.columns with
      | [] => .error "IndexError: list index out of range"
      | smiles_column :: label_columns =>
          .ok { tokenizer, file_path, block_size, dataset := data.rows,
                smiles_column, label_columns,
                num_labels := label_columns.length, len := data.rows.length }

/-- `RegressionDataset._clean_property(x)`:
`if x is None or math.isnan(x) or math.isinf(x): return 0` else `return x`.
The `or` is short-circuiting, so `None` never reaches `math.isnan`; a
non-numeric `x` (e.g. a `str`) makes `math.isnan` raise `TypeError`. -/
def clean_property (x : PyVal) : Except String PyVal :=
  if x = PyVal.none then .ok (PyVal.int 0)
  else match mathIsnan x with
    | .error m => .error m
    | .ok true => .ok (PyVal.int 0)
    | .ok false =>
        match mathIsinf x with
        | .error m => .error m
        | .ok true => .ok (PyVal.int 0)
        | .ok false => .ok x

/-- The exact options `RegressionDataset.preprocess` passes to the tokenizer:
special tokens, truncation, `padding="max_length"`, `max_length = block_size`. -/
def regOpts (block_size : Nat) : TokenizerOptions :=
  { add_special_tokens := true, truncation := true,
    padding := some "max_length", max_length := block_size }

/-- The list comprehension
`[self._clean_property(line[label_column]) for label_column in self.label_columns]`:
left-to-right over the label columns, raising at the first failing element
(a missing key raises `KeyError`, a non-numeric value `TypeError`). -/
def cleanLabels (line : List (String × PyVal)) : List String → Except String (List PyVal)
  | [] => .ok []
  | label_column :: rest =>
      match (match line.lookup label_column with
             | some x => clean_property x
             | Option.none => Except.error "KeyError") with
      | .error m => .error m
      | .ok v =>
          match cleanLabels line rest with
          | .error m => .error m
          | .ok vs => .ok (v :: vs)

/-- Python dict assignment `dct[k] = v`: replace in place if the key is
present, otherwise append (dicts preserve insertion order). -/
def dictInsert (l : List (String × List PyVal)) (k : String) (v : List PyVal) :
    List (String × List PyVal) :=
  if l.any (fun p => p.1 = k) then
    l.map (fun p => if p.1 = k then (k, v) else p)
  else
    l ++ [(k, v)]

/-- `RegressionDataset.preprocess(line)`: tokenize `line[self.smiles_column]`
(the tokenizer requires a `str`), set `batch_encoding["label"]` to the cleaned
label vector, and convert every field to a tensor (identity on the modelled
lists; tokenizer id-lists are injected into `PyVal` to live in one dict). -/
def preprocess (d : RegressionDataset) (line : List (String × PyVal)) :
    Except String (List (String × List PyVal)) :=
  match line.lookup d.smiles_column with
  | Option.none => .error "KeyError"
  | some (PyVal.str s) =>
      let batch_encoding := (d.tokenizer.call s (regOpts d.block_size)).map
        (fun p => (p.1, p.2.map PyVal.int))
      match cleanLabels line d.label_columns with
      | .error m => .error m
      | .ok labels => .ok (dictInsert batch_encoding "label" labels)
  | some _ => .error "TypeError: text input must be of type str"

/-- `RegressionDataset.__getitem__(i)`: fetch row `i`, then `preprocess`. -/
def getItem (d : RegressionDataset) (i : Nat) :
    Except String (List (String × List PyVal)) :=
  match d.dataset[i]? with
  | some line => d.preprocess line
  | Option.none => .error "IndexError: index out of range"

/-- State-passing rendering of `RegressionDataset.__getitem__`: the body
assigns no attribute, so the post state is the receiver unchanged. -/
def getItemS (d : RegressionDataset) (i : Nat) :
    Except String (List (String × List PyVal)) × RegressionDataset :=
  (d.getItem i, d)

end RegressionDataset

/-! ### Concrete fixtures used by the witnesses -/

/-- A concrete deterministic tokenizer honouring the documented
truncation/padding contract: one `"input_ids"` field, one id per character,
truncated to `max_length`, padded with 0 when `padding="max_length"`. -/
def demoTok : Tokenizer where
  call := fun s opts =>
    let ids0 := (List.range s.length).map Int.ofNat
    let ids1 := if opts.truncation then ids0.take opts.max_length else ids0
    let ids2 := if opts.padding = some "max_length" then
        ids1 ++ List.replicate (opts.max_length - ids1.length) 0
      else ids1
    [("input_ids", ids2)]

/-- A concrete file system: directory `"data"` with entries `a`, `b`, `c`,
and a regular file `"corpus.txt"`; everything else is absent. -/
def demoFS : FileSystem where
  isdir := fun p => p == "data"
  isfile := fun p => p == "corpus.txt"
  listdir := fun p => if p == "data" then ["a", "b", "c"] else []

/-- A file system whose directory `"data"` contains an entry `"sub"` that is
itself a directory, not a regular file. -/
def demoFS2 : FileSystem where
  isdir := fun p => p == "data" || p == "data/sub"
  isfile := fun _ => false
  listdir := fun p => if p == "data" then ["a", "sub"] else []

/-- A concrete Text Example Adapter over two lines. -/
def demoRaw : RawTextDataset where
  tokenizer := demoTok
  file_path := "corpus.txt"
  block_size := 8
  dataset := ["hello", "world"]
  len := 2

/-- Row `("a", 1.0, nan)` of the spec's end-to-end CSV example. -/
def demoRow0 : List (String × PyVal) :=
  [("text", PyVal.str "a"), ("y1", PyVal.float (PyFloat.finite 1)),
   ("y2", PyVal.float PyFloat.nan)]

/-- Row `("b", 2.0, 3.0)` of the spec's end-to-end CSV example. -/
def demoRow1 : List (String × PyVal) :=
  [("text", PyVal.str "b"), ("y1", PyVal.float (PyFloat.finite 2)),
   ("y2", PyVal.float (PyFloat.finite 3))]

/-- A concrete Label Example Adapter: header `text,y1,y2`, two rows. -/
def demoReg : RegressionDataset where
  tokenizer := demoTok
  file_path := "data.csv"
  block_size := 8
  dataset := [demoRow0, demoRow1]
  smiles_column := "text"
  label_columns := ["y1", "y2"]
  num_labels := 2
  len := 2

/-- A row whose label column holds a string, exercising the `TypeError`
path of `_clean_property`. -/
def demoRowBad : List (String × PyVal) :=
  [("text", PyVal.str "a"), ("y1", PyVal.str "oops")]

/-- A Label Example Adapter over `demoRowBad`. -/
def demoRegBad : RegressionDataset where
  tokenizer := demoTok
  file_path := "bad.csv"
  block_size := 8
  dataset := [demoRowBad]
  smiles_column := "text"
  label_columns := ["y1"]
  num_labels := 1
  len := 1

/-- A trivial concrete text loader capability. -/
def demoLoadText : DataFiles → List String := fun _ => []

/-- A trivial concrete CSV loader capability. -/
def demoLoadCsv : DataFiles → CsvData := fun _ => ⟨[], []⟩

/-! ### Helper lemmas -/

/-- `get_data_files` on a directory path returns the joined listing. -/
theorem gdf_dir_eq (fs : FileSystem) (p : String) (hdir : fs.isdir p = true) :
    get_data_files fs p =
      Except.ok (DataFiles.multiple
        ((fs.listdir p).map (fun file_name => os_path_join p file_name))) := by
  simp [get_data_files, hdir]

/-- A successful association-list lookup exhibits a member with that key. -/
theorem lookup_mem {α : Type} {l : List (String × α)} {k : String} {v : α}
    (h : l.lookup k = some v) : (k, v) ∈ l := by
  obtain ⟨l₁, l₂, rfl, -⟩ := List.lookup_eq_some_iff.mp h
  exact List.mem_append.mpr (Or.inr (List.mem_cons_self _ _))

/-- Replacing the value at a present key makes `lookup` find the new value. -/
theorem lookup_map_replace (k : String) (v : List PyVal) :
    ∀ (l : List (String × List PyVal)), l.any (fun p => p.1 = k) = true →
      (l.map (fun p => if p.1 = k then (k, v) else p)).lookup k = some v := by
  intro l
  induction l with
  | nil => intro h; cases h
  | cons p rest ih =>
      intro h
      obtain ⟨a, b⟩ := p
      by_cases ha : a = k
      · subst ha
        simp [List.lookup_cons]
      · have h' : rest.any (fun p => p.1 = k) = true := by
          simpa [List.any_cons, ha] using h
        have hne : (k == a) = false := by
          simp [Ne.symm ha]
        simp only [List.map_cons, if_neg ha, List.lookup_cons, hne]
        exact ih h'

/-- Python `dct["label"] = v` followed by `dct["label"]` yields `v`. -/
theorem lookup_dictInsert (l : List (String × List PyVal)) (k : String) (v : List PyVal) :
    (RegressionDataset.dictInsert l k v).lookup k = some v := by
  unfold RegressionDataset.dictInsert
  by_cases h : l.any (fun p => p.1 = k) = true
  · rw [if_pos h]
    exact lookup_map_replace k v l h
  · rw [if_neg h]
    have hnone : l.lookup k = Option.none := by
      rw [List.lookup_eq_none_iff]
      intro p hp
      have hfalse : l.any (fun p => decide (p.1 = k)) = false := Bool.eq_false_iff.mpr h
      have hnep : ¬ (p.1 = k) := by simpa using List.any_eq_false.mp hfalse p hp
      simpa [bne_iff_ne] using fun hkp : k = p.1 => hnep hkp.symm
    rw [List.lookup_append, hnone]
    simp

/-- A member of `dictInsert l k v` with a key other than `k` was already a
member of `l`. -/
theorem mem_dictInsert_ne {l : List (String × List PyVal)} {k k' : String}
    {v v' : List PyVal}
    (hmem : (k', v') ∈ RegressionDataset.dictInsert l k v) (hne : k' ≠ k) :
    (k', v') ∈ l := by
  unfold RegressionDataset.dictInsert at hmem
  split at hmem
  · obtain ⟨p, hp, hpe⟩ := List.mem_map.mp hmem
    by_cases hpk : p.1 = k
    · rw [if_pos hpk] at hpe
      cases hpe
      exact absurd rfl hne
    · rw [if_neg hpk] at hpe
      exact hpe ▸ hp
  · rcases List.mem_append.mp hmem with hl | hr
    · exact hl
    · have := List.mem_singleton.mp hr
      cases this
      exact absurd rfl hne

/-- A successful `cleanLabels` run yields one cleaned value per label
column. -/
theorem cleanLabels_ok_length {line : List (String × PyVal)} :
    ∀ {cols : List String} {ls : List PyVal},
      RegressionDataset.cleanLabels line cols = Except.ok ls →
      ls.length = cols.length := by
  intro cols
  induction cols with
  | nil =>
      intro ls h
      rw [RegressionDataset.cleanLabels] at h
      cases h
      rfl
  | cons c rest ih =>
      intro ls h
      rw [RegressionDataset.cleanLabels] at h
      split at h
      · cases h
      · split at h
        · cases h
        · cases h
          next v vs heq =>
            simp [List.length_cons, ih heq]

/-- If some label column of the row holds a string, `cleanLabels` raises. -/
theorem cleanLabels_error_of_str {line : List (String × PyVal)} {c s : String} :
    ∀ {cols : List String}, c ∈ cols → line.lookup c = some (PyVal.str s) →
      ∃ msg, RegressionDataset.cleanLabels line cols = Except.error msg := by
  intro cols
  induction cols with
  | nil => intro hc _; cases hc
  | cons c0 rest ih =>
      intro hc hval
      rw [RegressionDataset.cleanLabels]
      cases h0 : line.lookup c0 with
      | none => exact ⟨"KeyError", rfl⟩
      | some x =>
          cases hcp : RegressionDataset.clean_property x with
          | error m => exact ⟨m, by simp [hcp]⟩
          | ok v =>
              have hcrest : c ∈ rest := by
                rcases List.mem_cons.mp hc with h | h
                · subst h
                  rw [hval] at h0
                  cases h0
                  rw [show RegressionDataset.clean_property (PyVal.str s) =
                    Except.error "TypeError: must be real number" from rfl] at hcp
                  cases hcp
                · exact h
              obtain ⟨msg, hmsg⟩ := ih hcrest hval
              exact ⟨msg, by simp [hcp, hmsg]⟩

/-! ### Claim theorems -/

/-- Claim C1: for the Text Example Adapter, for every index `i` in
`[0, length())`, `get(i)` fetches the raw line at `i` from the lazy sequence,
tokenizes it with special tokens added, truncation enabled at `block_size`
and no padding requested, and returns the resulting `input_ids` token-id
sequence, whose length is at most `block_size` — assuming the (external)
tokenizer honours its truncation contract on this call and emits an
`input_ids` field. -/
theorem RawTextDataset.getItem_truncated (d : RawTextDataset) (i : Nat) (line : String)
    (hlen : d.len = d.dataset.length) (hi : i < d.len)
    (hline : d.dataset[i]? = some line)
    (htrunc : ∀ p ∈ d.tokenizer.call line (RawTextDataset.textOpts d.block_size),
      p.2.length ≤ d.block_size)
    (hids : ((d.tokenizer.call line (RawTextDataset.textOpts d.block_size)).lookup
      "input_ids").isSome = true) :
    ∃ ids, d.getItem i = Except.ok ids ∧
      (d.tokenizer.call line (RawTextDataset.textOpts d.block_size)).lookup "input_ids"
        = some ids ∧
      ids.length ≤ d.block_size := by
  obtain ⟨ids, hl⟩ := Option.isSome_iff_exists.mp hids
  refine ⟨ids, ?_, hl, htrunc _ (lookup_mem hl)⟩
  simp [RawTextDataset.getItem, hline, RawTextDataset.preprocess, hl]

/-- Witness for C1: the adapter over `["hello", "world"]` with block size 8. -/
theorem RawTextDataset.getItem_truncated_witness :
    ∃ ids, demoRaw.getItem 0 = Except.ok ids ∧
      (demoRaw.tokenizer.call "hello" (RawTextDataset.textOpts demoRaw.block_size)).lookup
        "input_ids" = some ids ∧
      ids.length ≤ demoRaw.block_size :=
  RawTextDataset.getItem_truncated demoRaw 0 "hello" (by decide) (by decide) (by decide)
    (by decide) (by decide)

/-- Claim C2: for the Label Example Adapter, `get(i)` returns a mapping whose
`label` field is exactly `_clean_property` applied to the value of each label
column of row `i`, taken in column order, so the label vector has exactly
`num_labels = number of label columns` entries. -/
theorem RegressionDataset.getItem_label (d : RegressionDataset) (i : Nat)
    (line : List (String × PyVal)) (s : String) (labels : List PyVal)
    (hnum : d.num_labels = d.label_columns.length)
    (hline : d.dataset[i]? = some line)
    (htext : line.lookup d.smiles_column = some (PyVal.str s))
    (hlabels : RegressionDataset.cleanLabels line d.label_columns = Except.ok labels) :
    ∃ out, d.getItem i = Except.ok out ∧
      out.lookup "label" = some labels ∧
      labels.length = d.num_labels := by
  refine ⟨RegressionDataset.dictInsert
      ((d.tokenizer.call s (RegressionDataset.regOpts d.block_size)).map
        (fun p => (p.1, p.2.map PyVal.int))) "label" labels, ?_, ?_, ?_⟩
  · simp [RegressionDataset.getItem, hline, RegressionDataset.preprocess, htext, hlabels]
  · exact lookup_dictInsert _ _ _
  · rw [hnum]
    exact cleanLabels_ok_length hlabels

/-- Witness for C2: the spec's CSV example, row 0 = `("a", 1.0, nan)` gives
label vector `[1.0, 0]`. -/
theorem RegressionDataset.getItem_label_witness :
    ∃ out, demoReg.getItem 0 = Except.ok out ∧
      out.lookup "label" = some [PyVal.float (PyFloat.finite 1), PyVal.int 0] ∧
      [PyVal.float (PyFloat.finite 1), PyVal.int 0].length = demoReg.num_labels :=
  RegressionDataset.getItem_label demoReg 0 demoRow0 "a"
    [PyVal.float (PyFloat.finite 1), PyVal.int 0] rfl rfl rfl rfl

/-- Claim C3: for the Label Example Adapter, every field of the mapping
returned by `get(i)` other than `label` has length exactly `block_size`,
because the text column is tokenized with truncation enabled and
`padding="max_length"` — assuming the (external) tokenizer honours its
fixed-padding contract on this call. -/
theorem RegressionDataset.getItem_padded (d : RegressionDataset) (i : Nat)
    (line : List (String × PyVal)) (s : String) (labels : List PyVal)
    (hline : d.dataset[i]? = some line)
    (htext : line.lookup d.smiles_column = some (PyVal.str s))
    (hpad : ∀ p ∈ d.tokenizer.call s (RegressionDataset.regOpts d.block_size),
      p.2.length = d.block_size)
    (hlabels : RegressionDataset.cleanLabels line d.label_columns = Except.ok labels) :
    ∃ out, d.getItem i = Except.ok out ∧
      ∀ k v, (k, v) ∈ out → k ≠ "label" → v.length = d.block_size := by
  refine ⟨RegressionDataset.dictInsert
      ((d.tokenizer.call s (RegressionDataset.regOpts d.block_size)).map
        (fun p => (p.1, p.2.map PyVal.int))) "label" labels, ?_, ?_⟩
  · simp [RegressionDataset.getItem, hline, RegressionDataset.preprocess, htext, hlabels]
  · intro k v hmem hne
    have hmem' := mem_dictInsert_ne hmem hne
    obtain ⟨p, hp, hpe⟩ := List.mem_map.mp hmem'
    injection hpe with hk hv
    rw [← hv, List.length_map]
    exact hpad p hp

/-- Witness for C3: the spec's CSV example, row 1 = `("b", 2.0, 3.0)`. -/
theorem RegressionDataset.getItem_padded_witness :
    ∃ out, demoReg.getItem 1 = Except.ok out ∧
      ∀ k v, (k, v) ∈ out → k ≠ "label" → v.length = demoReg.block_size :=
  RegressionDataset.getItem_padded demoReg 1 demoRow1 "b"
    [PyVal.float (PyFloat.finite 2), PyVal.float (PyFloat.finite 3)]
    rfl rfl (by decide) rfl

/-- Claim C4: `_clean_property` returns `0` on `None`, NaN, +Inf and -Inf,
and returns its argument unchanged on every other numeric value; in
particular `_clean_property(3.5) = 3.5` and `_clean_property(0) = 0`. -/
theorem RegressionDataset.clean_property_spec :
    RegressionDataset.clean_property PyVal.none = Except.ok (PyVal.int 0) ∧
    RegressionDataset.clean_property (PyVal.float PyFloat.nan) = Except.ok (PyVal.int 0) ∧
    RegressionDataset.clean_property (PyVal.float PyFloat.inf) = Except.ok (PyVal.int 0) ∧
    RegressionDataset.clean_property (PyVal.float PyFloat.ninf) = Except.ok (PyVal.int 0) ∧
    (∀ q : ℚ, RegressionDataset.clean_property (PyVal.float (PyFloat.finite q)) =
      Except.ok (PyVal.float (PyFloat.finite q))) ∧
    (∀ n : ℤ, RegressionDataset.clean_property (PyVal.int n) = Except.ok (PyVal.int n)) ∧
    RegressionDataset.clean_property (PyVal.float (PyFloat.finite (7 / 2))) =
      Except.ok (PyVal.float (PyFloat.finite (7 / 2))) ∧
    RegressionDataset.clean_property (PyVal.int 0) = Except.ok (PyVal.int 0) :=
  ⟨rfl, rfl, rfl, rfl, fun _ => rfl, fun _ => rfl, rfl, rfl⟩

/-- Claim C5: on a directory path, `get_data_files` returns the directory's
entries, each joined with the directory path, in listing order. -/
theorem get_data_files_dir (fs : FileSystem) (train_path : String)
    (hdir : fs.isdir train_path = true) :
    get_data_files fs train_path =
      Except.ok (DataFiles.multiple
        ((fs.listdir train_path).map
          (fun file_name => os_path_join train_path file_name))) :=
  gdf_dir_eq fs train_path hdir

/-- Witness for C5: a directory `"data"` with entries `{a, b, c}` resolves to
exactly `{data/a, data/b, data/c}` in listing order. -/
theorem get_data_files_dir_witness :
    get_data_files demoFS "data" =
      Except.ok (DataFiles.multiple ["data/a", "data/b", "data/c"]) := by
  rw [get_data_files_dir demoFS "data" rfl]
  rfl

/-- Claim C6: on a regular-file path, `get_data_files` returns the bare path
itself (`DataFiles.single`), not wrapped in a list. -/
theorem get_data_files_file (fs : FileSystem) (train_path : String)
    (hnotdir : fs.isdir train_path = false)
    (hfile : fs.isfile train_path = true) :
    get_data_files fs train_path = Except.ok (DataFiles.single train_path) := by
  simp [get_data_files, hnotdir, hfile]

/-- Witness for C6: the single file `"corpus.txt"`. -/
theorem get_data_files_file_witness :
    get_data_files demoFS "corpus.txt" = Except.ok (DataFiles.single "corpus.txt") :=
  get_data_files_file demoFS "corpus.txt" rfl rfl

/-- Claim C7: on a path that is neither a regular file nor a directory,
`get_data_files` raises the invalid-path error, and since both adapters call
it during construction, construction fails with that same error, propagated
to the caller. -/
theorem get_data_files_invalid_propagates (fs : FileSystem) (tokenizer : Tokenizer)
    (load_text : DataFiles → List String) (load_csv : DataFiles → CsvData)
    (train_path : String) (block_size : Nat)
    (hnotdir : fs.isdir train_path = false) (hnotfile : fs.isfile train_path = false) :
    get_data_files fs train_path = Except.error "Please pass in a proper train path" ∧
    RawTextDataset.init tokenizer fs load_text train_path block_size =
      Except.error "Please pass in a proper train path" ∧
    RegressionDataset.init tokenizer fs load_csv train_path block_size =
      Except.error "Please pass in a proper train path" := by
  have h : get_data_files fs train_path =
      Except.error "Please pass in a proper train path" := by
    simp [get_data_files, hnotdir, hnotfile]
  exact ⟨h, by simp [RawTextDataset.init, h], by simp [RegressionDataset.init, h]⟩

/-- Witness for C7: the absent path `"missing.txt"`. -/
theorem get_data_files_invalid_propagates_witness :
    get_data_files demoFS "missing.txt" =
      Except.error "Please pass in a proper train path" ∧
    RawTextDataset.init demoTok demoFS demoLoadText "missing.txt" 8 =
      Except.error "Please pass in a proper train path" ∧
    RegressionDataset.init demoTok demoFS demoLoadCsv "missing.txt" 8 =
      Except.error "Please pass in a proper train path" :=
  get_data_files_invalid_propagates demoFS demoTok demoLoadText demoLoadCsv
    "missing.txt" 8 rfl rfl

/-- Claim C8: `get` on either adapter is deterministic and side-effect free:
in the state-passing rendering of `__getitem__` the post state equals the
receiver, and a second call with the same index on the post state returns
the same output. -/
theorem getItem_stateless_deterministic (d : RawTextDataset) (r : RegressionDataset)
    (i : Nat) :
    (d.getItemS i).2 = d ∧
    ((d.getItemS i).2.getItemS i).1 = (d.getItemS i).1 ∧
    (r.getItemS i).2 = r ∧
    ((r.getItemS i).2.getItemS i).1 = (r.getItemS i).1 :=
  ⟨rfl, rfl, rfl, rfl⟩

/-- Claim C9 (implicit): on a directory path, `get_data_files` includes every
listing entry joined with the path — no filtering by entry kind (the
hypotheses say nothing about `entry` being a regular file) — and the
resulting file list is what construction passes to the lazy loader. -/
theorem get_data_files_no_kind_filter (fs : FileSystem) (tokenizer : Tokenizer)
    (load_text : DataFiles → List String) (train_path entry : String) (block_size : Nat)
    (hdir : fs.isdir train_path = true) (hentry : entry ∈ fs.listdir train_path) :
    ∃ files, get_data_files fs train_path = Except.ok (DataFiles.multiple files) ∧
      os_path_join train_path entry ∈ files ∧
      (RawTextDataset.init tokenizer fs load_text train_path block_size).map
        (fun d => d.dataset) = Except.ok (load_text (DataFiles.multiple files)) := by
  refine ⟨(fs.listdir train_path).map (fun file_name => os_path_join train_path file_name),
    gdf_dir_eq fs train_path hdir, List.mem_map_of_mem _ hentry, ?_⟩
  simp [RawTextDataset.init, gdf_dir_eq fs train_path hdir, Except.map]

/-- Witness for C9: `"data/sub"` is a directory, not a regular file, yet it
appears in the resolved file list handed to the loader. -/
theorem get_data_files_no_kind_filter_witness :
    demoFS2.isfile "data/sub" = false ∧
    demoFS2.isdir "data/sub" = true ∧
    ∃ files, get_data_files demoFS2 "data" = Except.ok (DataFiles.multiple files) ∧
      os_path_join "data" "sub" ∈ files ∧
      (RawTextDataset.init demoTok demoFS2 demoLoadText "data" 8).map
        (fun d => d.dataset) = Except.ok (demoLoadText (DataFiles.multiple files)) :=
  ⟨rfl, rfl,
    get_data_files_no_kind_filter demoFS2 demoTok demoLoadText "data" "sub" 8
      rfl (by decide)⟩

/-- Claim C10 (implicit): `_clean_property` raises `TypeError` on any
argument that is neither `None` nor numeric (e.g. a string), so a row whose
label column holds a string makes `get(i)` fail rather than be normalized. -/
theorem clean_property_str_raises (d : RegressionDataset) (i : Nat)
    (line : List (String × PyVal)) (t c s : String)
    (hline : d.dataset[i]? = some line)
    (htext : line.lookup d.smiles_column = some (PyVal.str t))
    (hc : c ∈ d.label_columns)
    (hval : line.lookup c = some (PyVal.str s)) :
    (∀ u : String, RegressionDataset.clean_property (PyVal.str u) =
      Except.error "TypeError: must be real number") ∧
    ∃ msg, d.getItem i = Except.error msg := by
  obtain ⟨msg, hmsg⟩ := cleanLabels_error_of_str hc hval
  refine ⟨fun _ => rfl, msg, ?_⟩
  simp [RegressionDataset.getItem, hline, RegressionDataset.preprocess, htext, hmsg]

/-- Witness for C10: a row whose label column `y1` holds the string
`"oops"`. -/
theorem clean_property_str_raises_witness :
    (∀ u : String, RegressionDataset.clean_property (PyVal.str u) =
      Except.error "TypeError: must be real number") ∧
    ∃ msg, demoRegBad.getItem 0 = Except.error msg :=
  clean_property_str_raises demoRegBad 0 demoRowBad "a" "y1" "oops"
    rfl rfl (by decide) rfl

end Chemberta
